import Mathlib

/-!
Shallow embedding of the gomonad Go library (Maybe, Result, Either).

Each Go struct is embedded as a Lean structure carrying the same fields.
Go struct literals leave unmentioned fields at their zero value; we model
the zero value of a type by `Inhabited.default`, and the Go `error`
interface by `Option ε` whose zero value (nil) is `none`.
Because the structs keep a payload field for the unpopulated side, values
reachable through the package API satisfy a well-formedness invariant:
the unpopulated field holds the zero value. `wf` predicates capture this.
-/

set_option maxHeartbeats 1000000

namespace maybepkg

/-- Go struct `Maybe[T any] { value T; isJust bool }`. -/
structure Maybe (T : Type) where
  value : T
  isJust : Bool
  deriving DecidableEq

/-- Go `Just[T any](val T) Maybe[T]`. -/
def Just {T : Type} (val : T) : Maybe T :=
  ⟨val, true⟩

/-- Go `Nothing[T any]() Maybe[T]`: the value field is left at T's zero value. -/
def Nothing (T : Type) [Inhabited T] : Maybe T :=
  ⟨default, false⟩

/-- Go `Bind[T, U any](m Maybe[T], f func(T) Maybe[U]) Maybe[U]`. -/
def Bind {T U : Type} [Inhabited U] (m : Maybe T) (f : T → Maybe U) : Maybe U :=
  if !m.isJust then Nothing U else f m.value

/-- Go `Map[T, U any](m Maybe[T], f func(T) U) Maybe[U]`. -/
def Map {T U : Type} [Inhabited U] (m : Maybe T) (f : T → U) : Maybe U :=
  if !m.isJust then Nothing U else Just (f m.value)

/-- Go method `Unpack(defaultValue T) T`. -/
def Maybe.Unpack {T : Type} (m : Maybe T) (defaultValue : T) : T :=
  if !m.isJust then defaultValue else m.value

/-- Go method `IsJust() bool`. -/
def Maybe.IsJust {T : Type} (m : Maybe T) : Bool :=
  m.isJust

/-- Go method `IsNothing() bool`. -/
def Maybe.IsNothing {T : Type} (m : Maybe T) : Bool :=
  !m.isJust

/-- Go method `Get() T`: returns the value field unconditionally. -/
def Maybe.Get {T : Type} (m : Maybe T) : T :=
  m.value

/-- Invariant of every `Maybe` reachable through the package API:
an empty instance holds the zero value in its value field. -/
def Maybe.wf {T : Type} [Inhabited T] (m : Maybe T) : Prop :=
  m.isJust = false → m.value = default

end maybepkg

namespace gomonad

/-- Go struct `Result[T any] { value T; err error; isError bool }`;
the Go `error` interface is modelled as `Option ε` (nil = `none`). -/
structure Result (ε T : Type) where
  value : T
  err : Option ε
  isError : Bool
  deriving DecidableEq

/-- Go `Ok[T any](val T) Result[T]`: the err field is left at nil. -/
def Ok {ε T : Type} (val : T) : Result ε T :=
  ⟨val, none, false⟩

/-- Go `Err[T any](err error) Result[T]`: the value field is left at T's zero value. -/
def Err {ε : Type} (T : Type) [Inhabited T] (e : Option ε) : Result ε T :=
  ⟨default, e, true⟩

/-- Go method `IsOk() bool`. -/
def Result.IsOk {ε T : Type} (r : Result ε T) : Bool :=
  !r.isError

/-- Go method `IsErr() bool`. -/
def Result.IsErr {ε T : Type} (r : Result ε T) : Bool :=
  r.isError

/-- Go method `Get() T`: returns the value field unconditionally. -/
def Result.Get {ε T : Type} (r : Result ε T) : T :=
  r.value

/-- Go method `GetErr() error`. -/
def Result.GetErr {ε T : Type} (r : Result ε T) : Option ε :=
  r.err

/-- Go `BindResult[T, U any](r Result[T], f func(T) Result[U]) Result[U]`. -/
def BindResult {ε T U : Type} [Inhabited U] (r : Result ε T) (f : T → Result ε U) : Result ε U :=
  if r.isError then Err U r.err else f r.value

/-- Go `MapResult[T, U any](r Result[T], f func(T) U) Result[U]`. -/
def MapResult {ε T U : Type} [Inhabited U] (r : Result ε T) (f : T → U) : Result ε U :=
  if r.isError then Err U r.err else Ok (f r.value)

/-- Invariant of every `Result` reachable through the package API:
a failure holds the zero value in its value field, a success holds nil in its err field. -/
def Result.wf {ε T : Type} [Inhabited T] (r : Result ε T) : Prop :=
  (r.isError = true → r.value = default) ∧ (r.isError = false → r.err = none)

/-- Go struct `Either[A, B any] { left A; right B; isLeft bool }`. -/
structure Either (A B : Type) where
  left : A
  right : B
  isLeft : Bool
  deriving DecidableEq

/-- Go `Left[A, B any](val A) Either[A, B]`: the right field is left at B's zero value. -/
def Left {A : Type} (B : Type) [Inhabited B] (val : A) : Either A B :=
  ⟨val, default, true⟩

/-- Go `Right[A, B any](val B) Either[A, B]`: the left field is left at A's zero value. -/
def Right (A : Type) {B : Type} [Inhabited A] (val : B) : Either A B :=
  ⟨default, val, false⟩

/-- Go method `IsLeft() bool`. -/
def Either.IsLeft {A B : Type} (e : Either A B) : Bool :=
  e.isLeft

/-- Go method `IsRight() bool`. -/
def Either.IsRight {A B : Type} (e : Either A B) : Bool :=
  !e.isLeft

/-- Go method `Left() A`: returns the left field unconditionally. -/
def Either.Left {A B : Type} (e : Either A B) : A :=
  e.left

/-- Go method `Right() B`: returns the right field unconditionally. -/
def Either.Right {A B : Type} (e : Either A B) : B :=
  e.right

/-- Go `MapRight[A, B, C any](e Either[A, B], f func(B) C) Either[A, C]`. -/
def MapRight {A B C : Type} [Inhabited A] [Inhabited C]
    (e : Either A B) (f : B → C) : Either A C :=
  if e.isLeft then Left C e.left else Right A (f e.right)

/-- Go `Fold[A, B, T any](e Either[A, B], leftFunc func(A) T, rightFunc func(B) T) T`. -/
def Fold {A B T : Type} (e : Either A B) (leftFunc : A → T) (rightFunc : B → T) : T :=
  if e.isLeft then leftFunc e.left else rightFunc e.right

/-- Go `Swap[A, B any](e Either[A, B]) Either[B, A]`. -/
def Swap {A B : Type} [Inhabited A] [Inhabited B] (e : Either A B) : Either B A :=
  if e.isLeft then Right B e.left else Left A e.right

/-- Go `MapLeft[A, B, C any](e Either[A, B], f func(A) C) Either[C, B]`. -/
def MapLeft {A B C : Type} [Inhabited B] [Inhabited C]
    (e : Either A B) (f : A → C) : Either C B :=
  if e.isLeft then Left B (f e.left) else Right C e.right

/-- Go `ToResult[T any](e Either[error, T]) Result[T]`. -/
def ToResult {ε T : Type} [Inhabited T] (e : Either (Option ε) T) : Result ε T :=
  if e.isLeft then Err T e.left else Ok e.right

/-- Invariant of every `Either` reachable through the package API:
the unpopulated side holds its type's zero value. -/
def Either.wf {A B : Type} [Inhabited A] [Inhabited B] (e : Either A B) : Prop :=
  (e.isLeft = true → e.right = default) ∧ (e.isLeft = false → e.left = default)

/-- The `Just` constructor produces a well-formed Maybe. -/
theorem just_wf {T : Type} [Inhabited T] (v : T) : (maybepkg.Just v).wf := by
  intro h
  exact absurd h (by simp [maybepkg.Just])

/-- The `Nothing` constructor produces a well-formed Maybe. -/
theorem nothing_wf (T : Type) [Inhabited T] : (maybepkg.Nothing T).wf := by
  intro _
  rfl

/-- The `Ok` constructor produces a well-formed Result. -/
theorem ok_wf {ε T : Type} [Inhabited T] (v : T) : (Ok v : Result ε T).wf := by
  constructor
  · intro h
    exact absurd h (by simp [Ok])
  · intro _
    rfl

/-- The `Err` constructor produces a well-formed Result. -/
theorem err_wf {ε : Type} (T : Type) [Inhabited T] (e : Option ε) : (Err T e).wf := by
  constructor
  · intro _
    rfl
  · intro h
    exact absurd h (by simp [Err])

/-- The `Left` constructor produces a well-formed Either. -/
theorem left_wf {A : Type} (B : Type) [Inhabited A] [Inhabited B] (a : A) :
    (Left B a).wf := by
  constructor
  · intro _
    rfl
  · intro h
    exact absurd h (by simp [Left])

/-- The `Right` constructor produces a well-formed Either. -/
theorem right_wf (A : Type) {B : Type} [Inhabited A] [Inhabited B] (b : B) :
    (Right A b).wf := by
  constructor
  · intro h
    exact absurd h (by simp [Right])
  · intro _
    rfl

/-- Claim C1: Bind on an absent Maybe returns Nothing without invoking f (the
result does not depend on f); Bind and Map on a failed Result return a failure
carrying the original error unchanged, without invoking the supplied function. -/
theorem bind_short_circuits {T U ε : Type} [Inhabited U]
    (m : maybepkg.Maybe T) (hm : m.IsNothing = true)
    (r : Result ε T) (hr : r.IsErr = true)
    (f : T → maybepkg.Maybe U) (g : T → Result ε U) (h : T → U) :
    maybepkg.Bind m f = maybepkg.Nothing U ∧
    BindResult r g = Err U r.GetErr ∧
    MapResult r h = Err U r.GetErr := by
  simp only [maybepkg.Maybe.IsNothing, Bool.not_eq_eq_eq_not, Bool.not_true] at hm
  simp only [Result.IsErr] at hr
  refine ⟨?_, ?_, ?_⟩
  · simp [maybepkg.Bind, hm]
  · simp [BindResult, hr, Result.GetErr]
  · simp [MapResult, hr, Result.GetErr]

/-- Witness for C1 at concrete inputs. -/
theorem bind_short_circuits_witness :
    (maybepkg.Nothing Nat).IsNothing = true ∧
    (Err Nat (some "bad") : Result String Nat).IsErr = true ∧
    (maybepkg.Bind (maybepkg.Nothing Nat) (fun n => maybepkg.Just (n + 1)) =
        maybepkg.Nothing Nat ∧
      BindResult (Err Nat (some "bad") : Result String Nat) (fun n => Ok (n + 1)) =
        Err Nat (Err Nat (some "bad") : Result String Nat).GetErr ∧
      MapResult (Err Nat (some "bad") : Result String Nat) (fun n => n + 1) =
        Err Nat (Err Nat (some "bad") : Result String Nat).GetErr) :=
  ⟨rfl, rfl,
    bind_short_circuits (maybepkg.Nothing Nat) rfl
      (Err Nat (some "bad") : Result String Nat) rfl _ _ _⟩

/-- Claim C2: the bridge maps Left(a) to a failure whose error is a, and
Right(b) to a success whose value is b. -/
theorem to_result_bridge {ε T : Type} [Inhabited T] (a : Option ε) (b : T) :
    (ToResult (Left T a)).IsErr = true ∧
    (ToResult (Left T a)).GetErr = a ∧
    (ToResult (Right (Option ε) b)).IsOk = true ∧
    (ToResult (Right (Option ε) b)).Get = b := by
  refine ⟨rfl, rfl, rfl, rfl⟩

/-- Claim C3: Fold on Left(a) returns onLeft(a) and its result does not depend
on the right function; Fold on Right(b) returns onRight(b) and its result does
not depend on the left function; so exactly one of the two is invoked. -/
theorem fold_exact_dispatch {A B T : Type} [Inhabited A] [Inhabited B] (a : A) (b : B)
    (onLeft onLeft2 : A → T) (onRight onRight2 : B → T) :
    Fold (Left B a) onLeft onRight = onLeft a ∧
    Fold (Left B a) onLeft onRight = Fold (Left B a) onLeft onRight2 ∧
    Fold (Right A b) onLeft onRight = onRight b ∧
    Fold (Right A b) onLeft onRight = Fold (Right A b) onLeft2 onRight := by
  refine ⟨rfl, rfl, rfl, rfl⟩

/-- Claim C4: Bind is associative for Maybe and for Result. -/
theorem bind_assoc {T U V ε : Type} [Inhabited U] [Inhabited V]
    (m : maybepkg.Maybe T) (f : T → maybepkg.Maybe U) (g : U → maybepkg.Maybe V)
    (r : Result ε T) (rf : T → Result ε U) (rg : U → Result ε V) :
    maybepkg.Bind (maybepkg.Bind m f) g =
      maybepkg.Bind m (fun x => maybepkg.Bind (f x) g) ∧
    BindResult (BindResult r rf) rg =
      BindResult r (fun x => BindResult (rf x) rg) := by
  constructor
  · rcases m with ⟨v, j⟩
    cases j <;> simp [maybepkg.Bind, maybepkg.Nothing]
  · rcases r with ⟨v, er, b⟩
    cases b <;> simp [BindResult, Err]

/-- Claim C5: mapping the identity function over any well-formed Maybe or
Result returns the original value. -/
theorem map_identity {T ε : Type} [Inhabited T]
    (m : maybepkg.Maybe T) (hm : m.wf) (r : Result ε T) (hr : r.wf) :
    maybepkg.Map m id = m ∧ MapResult r id = r := by
  constructor
  · rcases m with ⟨v, j⟩
    cases j
    · have hv : v = default := hm rfl
      subst hv
      simp [maybepkg.Map, maybepkg.Nothing]
    · simp [maybepkg.Map, maybepkg.Just]
  · rcases r with ⟨v, er, b⟩
    cases b
    · have he : er = none := hr.2 rfl
      subst he
      simp [MapResult, Ok]
    · have hv : v = default := hr.1 rfl
      subst hv
      simp [MapResult, Err]

/-- Witness for C5 at concrete inputs. -/
theorem map_identity_witness :
    (maybepkg.Just (5 : Nat)).wf ∧ (Ok 3 : Result String Nat).wf ∧
    (maybepkg.Map (maybepkg.Just (5 : Nat)) id = maybepkg.Just (5 : Nat) ∧
      MapResult (Ok 3 : Result String Nat) id = (Ok 3 : Result String Nat)) :=
  ⟨just_wf 5, ok_wf 3,
    map_identity (maybepkg.Just (5 : Nat)) (just_wf 5)
      (Ok 3 : Result String Nat) (ok_wf 3)⟩

/-- Claim C6: Swap is an involution on every well-formed Either, and a single
Swap turns Left(a) into Right(a) and Right(b) into Left(b), payload unchanged. -/
theorem swap_involution {A B : Type} [Inhabited A] [Inhabited B]
    (e : Either A B) (he : e.wf) (a : A) (b : B) :
    Swap (Swap e) = e ∧
    Swap (Left B a) = Right B a ∧
    Swap (Right A b) = Left A b := by
  refine ⟨?_, rfl, rfl⟩
  rcases e with ⟨l, r, s⟩
  cases s
  · have hl : l = default := he.2 rfl
    subst hl
    simp [Swap, Left, Right]
  · have hr : r = default := he.1 rfl
    subst hr
    simp [Swap, Left, Right]

/-- Witness for C6 at concrete inputs. -/
theorem swap_involution_witness :
    (Left Nat "x" : Either String Nat).wf ∧
    (Swap (Swap (Left Nat "x" : Either String Nat)) = (Left Nat "x" : Either String Nat) ∧
      Swap (Left Nat ("y" : String)) = Right Nat "y" ∧
      Swap (Right String (7 : Nat)) = Left String 7) :=
  ⟨left_wf Nat "x",
    swap_involution (Left Nat "x" : Either String Nat) (left_wf Nat "x") "y" 7⟩

/-- Claim C7: folding the swap of Right[string,int](100) selects the left
branch and yields the string given by the left function. -/
theorem fold_swap_scenario :
    Fold (Swap (Right String (100 : Int)))
      (fun _ => "num") (fun _ => "str") = "num" := by
  rfl

/-- Claim C8: reading the accessor of the unpopulated variant returns the zero
value of the payload type: Get on Nothing, the left accessor on a Right, and
the right accessor on a Left. -/
theorem wrong_variant_zero (T : Type) [Inhabited T] {A B : Type}
    [Inhabited A] [Inhabited B] (a : A) (b : B) :
    (maybepkg.Nothing T).Get = (default : T) ∧
    (Right A b).Left = (default : A) ∧
    (Left B a).Right = (default : B) := by
  refine ⟨rfl, rfl, rfl⟩

/-- Claim C9: the bridge commutes with mapping on the right side:
ToResult (MapRight e f) = MapResult (ToResult e) f for every e. -/
theorem to_result_map_commutes {ε T U : Type} [Inhabited T] [Inhabited U]
    (e : Either (Option ε) T) (f : T → U) :
    ToResult (MapRight e f) = MapResult (ToResult e) f := by
  rcases e with ⟨l, r, s⟩
  cases s <;> simp [ToResult, MapRight, MapResult, Left, Right, Ok, Err]

/-- Claim C10: a Result built by Err with a nil error is still an error:
IsErr is true, IsOk is false, and GetErr returns nil. -/
theorem err_nil_is_error (T : Type) [Inhabited T] (ε : Type) :
    (Err T none : Result ε T).IsErr = true ∧
    (Err T none : Result ε T).IsOk = false ∧
    (Err T none : Result ε T).GetErr = none := by
  refine ⟨rfl, rfl, rfl⟩

end gomonad
